import Mathlib

/-!
Shallow embedding of `src/main.py` (Railway yt-dlp FastAPI gateway).

Modelling conventions for the Python/JSON values the handlers consume:

* A JSON string field that the code reads only through `dict.get(...)` and
  truthiness tests is modelled as `Option String`; `none` stands for the key
  being absent or bound to `null` (those are indistinguishable through
  `.get` + truthiness).
* `Format.height` is read as `fmt.get('height', 0) <= 720`, where a key that
  is *present but bound to null* makes the comparison raise `TypeError`,
  while an *absent* key defaults to `0`.  The two cases behave differently,
  so the field is `Option (Option Int)`: `none` = key absent,
  `some none` = key present with value null, `some (some n)` = integer value.
* `Info.ext` is read as `info.get('ext', 'mp4')`, where an absent key yields
  the default `"mp4"` but a present null yields Python `None`, stringified
  as `"None"` in the f-string building the filename; so it is also
  `Option (Option String)`.
* The extractor collaborator (`ydl.extract_info`) is an opaque black box; a
  handler takes its outcome as a parameter `outcome : Except String Info`
  (`Except.error msg` models the collaborator raising with message `msg`).
* `YT_DLP_AVAILABLE` is the parameter `avail : Bool`.
* `time.time()` is the parameter `ts : Nat` (Unix seconds).
-/

namespace RailwayYtdlp

/-- One entry of `info['formats']` as the handlers read it. -/
structure Fmt where
  format_id : Option String
  ext : Option String
  height : Option (Option Int)
  filesize : Option Int
  format_note : Option String
  vcodec : Option String
  url : Option String
deriving DecidableEq, Repr

/-- The extractor result dictionary, restricted to the keys the code reads.
`formats = none` models the key `'formats'` being absent. -/
structure Info where
  title : Option String
  duration : Option Int
  view_count : Option Int
  uploader : Option String
  url : Option String
  formats : Option (List Fmt)
  ext : Option (Option String)
deriving DecidableEq, Repr

/-- Python truthiness of an optional string: present and non-empty. -/
def truthyOpt : Option String → Bool
  | some s => decide (s ≠ "")
  | none => false

/-- Truthiness of `fmt.get('url')`. -/
def urlTruthy (f : Fmt) : Bool := truthyOpt f.url

/-- The condition of the first backup scan, evaluated with Python
short-circuiting:
`fmt.get('ext') == 'mp4' and fmt.get('height', 0) <= 720 and fmt.get('url')`.
The height is only touched when the extension test passed; a present-null
height then raises `TypeError`. -/
def firstLoopTest (f : Fmt) : Except Unit Bool :=
  if f.ext = some "mp4" then
    match f.height with
    | none => Except.ok (urlTruthy f)
    | some none => Except.error ()
    | some (some n) => Except.ok (decide (n ≤ 720) && urlTruthy f)
  else Except.ok false

/-- The condition of the second backup scan:
`fmt.get('height', 0) <= 720 and fmt.get('url') and fmt.get('vcodec') != 'none'`.
The height comparison comes first, so any present-null height raises. -/
def secondLoopTest (f : Fmt) : Except Unit Bool :=
  match f.height with
  | none => Except.ok (urlTruthy f && decide (f.vcodec ≠ some "none"))
  | some none => Except.error ()
  | some (some n) =>
      Except.ok (decide (n ≤ 720) && urlTruthy f && decide (f.vcodec ≠ some "none"))

/-- A Python `for`/`break` scan: first element passing `test`, propagating a
raised exception. -/
def findFirstM (test : Fmt → Except Unit Bool) : List Fmt → Except Unit (Option Fmt)
  | [] => Except.ok none
  | f :: fs =>
    match test f with
    | Except.error e => Except.error e
    | Except.ok b => if b then Except.ok (some f) else findFirstM test fs

/-- The playback-URL selection of `extract_video_info` (main.py lines 82-107):
top-level `url` if present and truthy; else the mp4 scan; else the
codec-filtered scan; else `""`.  Returns the chosen URL together with
`selected_format`.  `Except.error ()` models the `TypeError` escaping the
scans. -/
def selectDownload (info : Info) : Except Unit (String × Option Fmt) :=
  if truthyOpt info.url then Except.ok (info.url.getD "", none)
  else
    match info.formats with
    | none => Except.ok ("", none)
    | some fmts =>
      match findFirstM firstLoopTest fmts with
      | Except.error e => Except.error e
      | Except.ok (some f) => Except.ok (f.url.getD "", some f)
      | Except.ok none =>
        match findFirstM secondLoopTest fmts with
        | Except.error e => Except.error e
        | Except.ok (some f) => Except.ok (f.url.getD "", some f)
        | Except.ok none => Except.ok ("", none)

/-- One entry of the reshaped `processed_formats` list (main.py lines 114-120).
`height` is `fmt.get('height')`, i.e. absent and null collapse to `none`;
the mock entries carry no `filesize`/`note` keys, modelled as `none`. -/
structure DisplayFmt where
  format_id : String
  ext : String
  height : Option Int
  filesize : Option Int
  note : Option String
deriving DecidableEq, Repr

/-- Projection applied to a format kept for display. -/
def toDisplay (f : Fmt) : DisplayFmt :=
  { format_id := f.format_id.getD ""
    ext := f.ext.getD ""
    height := f.height.bind id
    filesize := f.filesize
    note := some (f.format_note.getD "") }

/-- Whether a format is kept for display:
`fmt.get('vcodec') != 'none' and fmt.get('url')`. -/
def displayKeep (f : Fmt) : Bool :=
  decide (f.vcodec ≠ some "none") && urlTruthy f

/-- The Python loop over `info['formats'][:5]` appending the kept entries. -/
def displayLoop : List Fmt → List DisplayFmt
  | [] => []
  | f :: fs =>
    if displayKeep f then toDisplay f :: displayLoop fs else displayLoop fs

/-- `processed_formats` (main.py lines 110-120): the first five entries of the
candidate sequence are taken, then filtered. -/
def displayFormats (info : Info) : List DisplayFmt :=
  match info.formats with
  | none => []
  | some fmts => displayLoop (fmts.take 5)

/-- The dictionary returned by `extract_video_info`.
`selected_format = none` models the key being absent (mock record). -/
structure VideoData where
  title : String
  duration : Option Int
  view_count : Option Int
  uploader : String
  formats : List DisplayFmt
  url : String
  direct_url : String
  selected_format : Option String
deriving DecidableEq, Repr

/-- The mock record returned when yt-dlp is unavailable (main.py lines 54-67). -/
def mockVideoData : VideoData :=
  { title := "Test Video - Mock Mode"
    duration := some 180
    view_count := some 1000
    uploader := "Test Channel"
    formats :=
      [ { format_id := "18", ext := "mp4", height := some 360
          filesize := none, note := none }
      , { format_id := "22", ext := "mp4", height := some 720
          filesize := none, note := none } ]
    url := "https://mock-download-url.com/test-video.mp4"
    direct_url := "https://mock-download-url.com/test-video.mp4"
    selected_format := none }

/-- A raised `fastapi.HTTPException`: status code and detail string. -/
structure HTTPErr where
  status : Nat
  detail : String
deriving DecidableEq, Repr

/-- `str` of the `TypeError` CPython raises when comparing `None` with an
`int` (exact interpreter wording abbreviated; no claim depends on it). -/
def noneIntCompareMsg : String := "unsupported comparison: NoneType and int"

/-- `extract_video_info` (main.py lines 52-135).  Any exception inside the
`try` block, including the null-height `TypeError`, is re-raised as
`HTTPException(500, "Video extraction failed: ...")`. -/
def extract_video_info (avail : Bool) (outcome : Except String Info) :
    Except HTTPErr VideoData :=
  if !avail then Except.ok mockVideoData
  else
    match outcome with
    | Except.error msg =>
        Except.error { status := 500, detail := "Video extraction failed: " ++ msg }
    | Except.ok info =>
      match selectDownload info with
      | Except.error _ =>
          Except.error
            { status := 500, detail := "Video extraction failed: " ++ noneIntCompareMsg }
      | Except.ok (durl, sel) =>
          Except.ok
            { title := info.title.getD "Unknown Title"
              duration := info.duration
              view_count := info.view_count
              uploader := info.uploader.getD "Unknown"
              formats := displayFormats info
              url := durl
              direct_url := durl
              selected_format :=
                some (match sel with
                      | some f => f.format_note.getD "auto"
                      | none => "auto") }

/-- The hard-coded Railway proxy base URL (main.py line 170). -/
def proxyBase : String := "https://railway-ytdlp-fresh-railway-ytdlp-fresh.up.railway.app"

/-- The proxy URL built for a request URL. -/
def proxyUrlOf (reqUrl : String) : String := proxyBase ++ "/stream?url=" ++ reqUrl

/-- The JSON body of a `/extract` response. -/
structure ExtractResp where
  success : Bool
  title : String
  duration : Option Int
  view_count : Option Int
  uploader : String
  formats : List DisplayFmt
  download_url : String
  direct_url : String
  proxy_url : String
  selected_format : String
  message : String
deriving DecidableEq, Repr

/-- The success body built by `extract_video` from the extracted data
(main.py lines 173-187). -/
def extractRespOf (vd : VideoData) (reqUrl : String) : ExtractResp :=
  { success := true
    title := vd.title
    duration := vd.duration
    view_count := vd.view_count
    uploader := vd.uploader
    formats := vd.formats
    download_url := proxyUrlOf reqUrl
    direct_url := proxyUrlOf reqUrl
    proxy_url := proxyUrlOf reqUrl
    selected_format := vd.selected_format.getD "auto"
    message := "Video information extracted with Railway proxy download URL" }

/-- `extract_video`, the `POST /extract` handler (main.py lines 160-197).
`except HTTPException: raise` re-raises the `HTTPException` from
`extract_video_info`, so it reaches FastAPI and sets the response status;
nothing else in the handler body can raise, so the
`except Exception` branch returning `success: false` is unreachable here. -/
def extract_video (avail : Bool) (outcome : Except String Info) (reqUrl : String) :
    Except HTTPErr ExtractResp :=
  match extract_video_info avail outcome with
  | Except.error e => Except.error e
  | Except.ok vd => Except.ok (extractRespOf vd reqUrl)

/-- HTTP status of a `/extract` response: 200 for a returned JSON body, the
exception status for a propagated `HTTPException`. -/
def extractStatus : Except HTTPErr ExtractResp → Nat
  | Except.error e => e.status
  | Except.ok _ => 200

/-- The stream-URL selection of `stream_video` (main.py lines 270-283):
top-level `url` if present and truthy, else the first of the first three
candidates with a truthy `url` (no codec or height filter). -/
def streamSelect (info : Info) : Option String :=
  if truthyOpt info.url then info.url
  else
    match info.formats with
    | some fmts =>
      if fmts ≠ [] then
        match (fmts.take 3).find? urlTruthy with
        | some f => f.url
        | none => none
      else none
    | none => none

/-- `str` of a `fastapi.HTTPException` (starlette): `"<status>: <detail>"`. -/
def httpErrStr (e : HTTPErr) : String := toString e.status ++ ": " ++ e.detail

/-- The UTF-8 encoding of one character, as byte values. -/
def utf8Bytes (c : Char) : List Nat :=
  let n := c.toNat
  if n < 0x80 then [n]
  else if n < 0x800 then [0xC0 + n / 0x40, 0x80 + n % 0x40]
  else if n < 0x10000 then
    [0xE0 + n / 0x1000, 0x80 + (n / 0x40) % 0x40, 0x80 + n % 0x40]
  else
    [0xF0 + n / 0x40000, 0x80 + (n / 0x1000) % 0x40, 0x80 + (n / 0x40) % 0x40,
     0x80 + n % 0x40]

/-- Uppercase hexadecimal digit for a value below 16. -/
def hexDigit (n : Nat) : Char :=
  if n < 10 then Char.ofNat (48 + n) else Char.ofNat (55 + n)

/-- `%XX` escape of one byte value. -/
def percentEncodeByte (b : Nat) : String :=
  "%" ++ String.singleton (hexDigit (b / 16 % 16)) ++ String.singleton (hexDigit (b % 16))

/-- Characters `urllib.parse.quote` leaves intact under starlette's safe set
`":/%#?=@[]!$&()*+,;"` plus the apostrophe (codepoint 39) plus the
always-safe ASCII alphanumerics and `_.-~`. -/
def isQuoteSafe (c : Char) : Bool :=
  c.isAlpha || c.isDigit || c = '_' || c = '.' || c = '-' || c = '~' ||
  c = ':' || c = '/' || c = '%' || c = '#' || c = '?' || c = '=' || c = '@' ||
  c = '[' || c = ']' || c = '!' || c = '$' || c = '&' || c = Char.ofNat 39 ||
  c = '(' || c = ')' || c = '*' || c = '+' || c = ',' || c = ';'

/-- `urllib.parse.quote(url, safe=...)` as applied by starlette's
`RedirectResponse` to the `Location` header: safe characters kept, every
other character UTF-8 encoded and percent-escaped. -/
def percentQuote (s : String) : String :=
  String.join (s.toList.map fun c =>
    if isQuoteSafe c then String.singleton c
    else String.join ((utf8Bytes c).map percentEncodeByte))

/-- Whether starlette can encode a header value as latin-1 (all codepoints
at most 255); `headers[...] = value` raises `UnicodeEncodeError` otherwise. -/
def latin1Encodable (s : String) : Bool :=
  s.toList.all fun c => decide (c.toNat ≤ 255)

/-- `str` of the `UnicodeEncodeError` raised when a header value cannot be
encoded as latin-1 (the interpreter wording, which names the offending
character and its position, is abbreviated; no claim depends on it). -/
def unicodeEncodeMsg : String := "latin-1 codec cannot encode character"

/-- The `Content-Disposition` value built at main.py lines 292 and 298:
`attachment; filename="video_<ts>.<ext>"`. -/
def contentDisposition (ts : Nat) (ext : String) : String :=
  "attachment; filename=\"" ++ ("video_" ++ toString ts ++ "." ++ ext) ++ "\""

/-- What a `GET /stream` request produces. -/
inductive StreamResult where
  /-- `RedirectResponse` with the given status, `Location` header value
  (starlette percent-quotes the target URL) and `Content-Disposition`
  header value; HTTP status is the first field. -/
  | redirect (status : Nat) (location : String) (contentDisposition : String)
  /-- A plain dict `{"error": body}` returned from the handler: FastAPI
  serves it as JSON with HTTP status 200. -/
  | jsonError (body : String)
deriving DecidableEq, Repr

/-- The file extension used in the generated filename:
`info.get('ext', 'mp4')`, stringified by the f-string (`None` for a
present-null value). -/
def streamExt (info : Info) : String :=
  match info.ext with
  | none => "mp4"
  | some none => "None"
  | some (some s) => s

/-- `stream_video`, the `GET /stream` handler (main.py lines 243-309).
The `HTTPException`s raised at lines 251 and 287 are raised *inside* the
`try` block and `fastapi.HTTPException` is a subclass of `Exception`, so the
blanket `except Exception` at line 307 catches them and the handler returns
a `{"error": ...}` dict (HTTP 200) instead of the intended error status.
On the success path, `RedirectResponse` percent-quotes the target URL into
the `Location` header, and the subsequent header assignment at line 298
encodes its value as latin-1: a value with a codepoint above 255 raises
`UnicodeEncodeError`, caught at lines 304-306 and returned as a
`{"error": "Character encoding error: ..."}` dict (the later
`X-Railway-Status: success` assignment is pure ASCII and cannot raise). -/
def stream_video (avail : Bool) (outcome : Except String Info) (ts : Nat) :
    StreamResult :=
  if !avail then
    StreamResult.jsonError
      ("Streaming failed: " ++ httpErrStr { status := 503, detail := "yt-dlp service not available" })
  else
    match outcome with
    | Except.error msg => StreamResult.jsonError ("Streaming failed: " ++ msg)
    | Except.ok info =>
      match streamSelect info with
      | none =>
          StreamResult.jsonError
            ("Streaming failed: " ++
              httpErrStr { status := 404, detail := "No streamable URL found for this video" })
      | some su =>
          if latin1Encodable (contentDisposition ts (streamExt info)) then
            StreamResult.redirect 302 (percentQuote su)
              (contentDisposition ts (streamExt info))
          else
            StreamResult.jsonError ("Character encoding error: " ++ unicodeEncodeMsg)

/-!
Spec-side definitions, written from the claims' words, for comparison with
the embedded code.
-/

/-- The candidate sequence of a result (empty when `'formats'` is absent). -/
def candidates (info : Info) : List Fmt := info.formats.getD []

/-- "whose height is at most 720": an absent height qualifies (the code
defaults it to 0); a present-null height never qualifies on the spec side
(such candidates make the code raise instead, see `secondLoopTest`). -/
def heightLE720 (f : Fmt) : Bool :=
  match f.height with
  | none => true
  | some none => false
  | some (some n) => decide (n ≤ 720)

/-- Claim C1, step 2: extension mp4, height at most 720, non-empty url. -/
def isMp4Pick (f : Fmt) : Bool :=
  decide (f.ext = some "mp4") && heightLE720 f && urlTruthy f

/-- Claim C1, step 3: height at most 720, non-empty url, vcodec not "none". -/
def isFallbackPick (f : Fmt) : Bool :=
  heightLE720 f && urlTruthy f && decide (f.vcodec ≠ some "none")

/-- Claim C1's selection order: top-level url if non-empty, else first
mp4 pick, else first fallback pick, else the empty string. -/
def specChoose (info : Info) : String :=
  if truthyOpt info.url then info.url.getD ""
  else
    match (candidates info).find? isMp4Pick with
    | some f => f.url.getD ""
    | none =>
      match (candidates info).find? isFallbackPick with
      | some f => f.url.getD ""
      | none => ""

/-- Every candidate's height, when present, is an integer (not null). -/
def heightsOk (info : Info) : Bool :=
  (candidates info).all (fun f => decide (f.height ≠ some none))

/-- The chosen playback URL of `extract_video_info` alone. -/
def chosenUrl (info : Info) : Except Unit String :=
  (selectDownload info).map Prod.fst

/-- Claim C6's two-step selection: top-level url if present and non-empty,
else the first of the first three candidates with a non-empty url. -/
def specStreamSelect (info : Info) : Option String :=
  if truthyOpt info.url then info.url
  else
    match ((candidates info).take 3).find? urlTruthy with
    | some f => f.url
    | none => none

/-- Claim C5's reading of the display list: filter the whole candidate
sequence, then take the first five. -/
def specDisplayFirstFive (info : Info) : List DisplayFmt :=
  (((candidates info).filter displayKeep).take 5).map toDisplay

/-- Claim C7's filename extension: the reported extension, or "mp4" when
the key is absent. -/
def specExt (info : Info) : String :=
  match info.ext with
  | some (some s) => s
  | _ => "mp4"

/-!
Helper lemmas about the scans.
-/

theorem firstLoopTest_ok (f : Fmt) (b : Bool) (h : firstLoopTest f = Except.ok b) :
    isMp4Pick f = b := by
  by_cases hx : f.ext = some "mp4" <;>
    rcases hh : f.height with _ | (_ | n) <;>
    simp [firstLoopTest, isMp4Pick, heightLE720, hx, hh] at h ⊢ <;>
    simp [h]

theorem secondLoopTest_ok (f : Fmt) (b : Bool) (h : secondLoopTest f = Except.ok b) :
    isFallbackPick f = b := by
  rcases hh : f.height with _ | (_ | n) <;>
    simp [secondLoopTest, isFallbackPick, heightLE720, hh] at h ⊢ <;>
    simp [h]

theorem firstLoopTest_of_ne (f : Fmt) (h : f.height ≠ some none) :
    firstLoopTest f = Except.ok (isMp4Pick f) := by
  by_cases hx : f.ext = some "mp4" <;>
    rcases hh : f.height with _ | (_ | n) <;>
    simp_all [firstLoopTest, isMp4Pick, heightLE720]

theorem secondLoopTest_of_ne (f : Fmt) (h : f.height ≠ some none) :
    secondLoopTest f = Except.ok (isFallbackPick f) := by
  rcases hh : f.height with _ | (_ | n) <;>
    simp_all [secondLoopTest, isFallbackPick, heightLE720]

/-- If a scan returns without raising, it returned the first element
satisfying the pure predicate compatible with its test. -/
theorem findFirstM_ok_eq (test : Fmt → Except Unit Bool) (p : Fmt → Bool)
    (hcompat : ∀ f b, test f = Except.ok b → p f = b) :
    ∀ (l : List Fmt) (r : Option Fmt),
      findFirstM test l = Except.ok r → r = l.find? p := by
  intro l
  induction l with
  | nil =>
    intro r hr
    simpa [findFirstM] using hr.symm
  | cons f fs ih =>
    intro r hr
    cases ht : test f with
    | error e => simp [findFirstM, ht] at hr
    | ok b =>
      have hp := hcompat f b ht
      cases b with
      | true =>
        simp [findFirstM, ht] at hr
        simp [List.find?, hp, hr]
      | false =>
        simp [findFirstM, ht] at hr
        simp [List.find?, hp, ih r hr]

/-- A scan over candidates with no present-null height returns exactly the
first element satisfying the pure predicate. -/
theorem findFirstM_eq_find (test : Fmt → Except Unit Bool) (p : Fmt → Bool)
    (l : List Fmt) (h : ∀ f ∈ l, test f = Except.ok (p f)) :
    findFirstM test l = Except.ok (l.find? p) := by
  induction l with
  | nil => rfl
  | cons f fs ih =>
    have hf := h f (List.mem_cons_self f fs)
    have hfs : ∀ g ∈ fs, test g = Except.ok (p g) :=
      fun g hg => h g (List.mem_cons_of_mem f hg)
    cases hp : p f with
    | true => simp [findFirstM, hf, hp, List.find?]
    | false => simp [findFirstM, hf, hp, List.find?, ih hfs]

/-- Whenever the selection completes without raising, the chosen URL is the
spec-ordered choice. -/
theorem selectDownload_ok_fst (info : Info) (u : String) (s : Option Fmt)
    (h : selectDownload info = Except.ok (u, s)) : u = specChoose info := by
  unfold selectDownload at h
  unfold specChoose
  by_cases htop : truthyOpt info.url
  · simp [htop] at h ⊢
    exact h.1.symm
  · simp only [htop, if_neg, Bool.false_eq_true, not_false_iff, if_false] at h ⊢
    cases hf : info.formats with
    | none =>
      simp [hf, candidates] at h ⊢
      exact h.1.symm
    | some fmts =>
      simp only [hf] at h
      cases h1 : findFirstM firstLoopTest fmts with
      | error e => simp [h1] at h
      | ok r1 =>
        have hr1 : r1 = fmts.find? isMp4Pick :=
          findFirstM_ok_eq firstLoopTest isMp4Pick firstLoopTest_ok fmts r1 h1
        cases r1 with
        | some f =>
          simp [h1] at h
          simp [candidates, hf, ← hr1, h.1]
        | none =>
          simp only [h1] at h
          cases h2 : findFirstM secondLoopTest fmts with
          | error e => simp [h2] at h
          | ok r2 =>
            have hr2 : r2 = fmts.find? isFallbackPick :=
              findFirstM_ok_eq secondLoopTest isFallbackPick secondLoopTest_ok fmts r2 h2
            cases r2 with
            | some f =>
              simp [h2] at h
              simp [candidates, hf, ← hr1, ← hr2, h.1]
            | none =>
              simp [h2] at h
              simp [candidates, hf, ← hr1, ← hr2, h.1]

/-- Under the no-null-height precondition the selection always completes. -/
theorem selectDownload_ok_of_heightsOk (info : Info) (h : heightsOk info = true) :
    ∃ pr, selectDownload info = Except.ok pr := by
  unfold heightsOk at h
  unfold selectDownload
  by_cases htop : truthyOpt info.url
  · exact ⟨(info.url.getD "", none), by simp [htop]⟩
  · cases hf : info.formats with
    | none => exact ⟨("", none), by simp [htop, hf]⟩
    | some fmts =>
      have hne : ∀ f ∈ fmts, f.height ≠ some none := by
        intro f hmem
        have := List.all_eq_true.mp h f (by simp [candidates, hf, hmem])
        simpa using this
      have e1 : findFirstM firstLoopTest fmts = Except.ok (fmts.find? isMp4Pick) :=
        findFirstM_eq_find _ _ fmts (fun f hf2 => firstLoopTest_of_ne f (hne f hf2))
      have e2 : findFirstM secondLoopTest fmts = Except.ok (fmts.find? isFallbackPick) :=
        findFirstM_eq_find _ _ fmts (fun f hf2 => secondLoopTest_of_ne f (hne f hf2))
      cases hr1 : fmts.find? isMp4Pick with
      | some f => exact ⟨(f.url.getD "", some f), by simp [htop, hf, e1, hr1]⟩
      | none =>
        cases hr2 : fmts.find? isFallbackPick with
        | some f =>
          exact ⟨(f.url.getD "", some f), by simp [htop, hf, e1, hr1, e2, hr2]⟩
        | none => exact ⟨("", none), by simp [htop, hf, e1, hr1, e2, hr2]⟩

/-!
Concrete inputs used by witnesses and counterexamples.
-/

/-- The webm 360p candidate of the example in spec §8. -/
def specExampleFmtA : Fmt :=
  { format_id := some "f1", ext := some "webm", height := some (some 360),
    filesize := none, format_note := some "360p", vcodec := some "vp9",
    url := some "A" }

/-- The mp4 480p candidate of the example in spec §8. -/
def specExampleFmtB : Fmt :=
  { format_id := some "f2", ext := some "mp4", height := some (some 480),
    filesize := none, format_note := some "480p", vcodec := some "h264",
    url := some "B" }

/-- The extractor result of the example in spec §8: no top-level url, the
two candidates above. -/
def specExampleResult : Info :=
  { title := some "t", duration := none, view_count := none, uploader := none,
    url := none, formats := some [specExampleFmtA, specExampleFmtB],
    ext := some (some "mp4") }

/-- A display-qualifying mp4 candidate with the given id and url. -/
def keepFmt (i : String) (u : String) : Fmt :=
  { format_id := some i, ext := some "mp4", height := some (some 360),
    filesize := none, format_note := none, vcodec := some "h264",
    url := some u }

/-- An audio-only candidate (vcodec "none"), dropped from display. -/
def audioOnlyFmt : Fmt :=
  { format_id := some "g0", ext := some "m4a", height := none,
    filesize := none, format_note := none, vcodec := some "none",
    url := some "a0" }

/-- Six candidates, the first audio-only: five qualify for display but only
four of them sit among the first five entries. -/
def sixFmtResult : Info :=
  { title := none, duration := none, view_count := none, uploader := none,
    url := none,
    formats := some [audioOnlyFmt, keepFmt "g1" "u1", keepFmt "g2" "u2",
                     keepFmt "g3" "u3", keepFmt "g4" "u4", keepFmt "g5" "u5"],
    ext := none }

/-- A candidate with no url key. -/
def noUrlFmt : Fmt :=
  { format_id := some "a", ext := some "m4a", height := some (some 240),
    filesize := none, format_note := none, vcodec := some "none", url := none }

/-- An extractor result with no top-level url and three url-less candidates. -/
def noUrlResult : Info :=
  { title := some "v", duration := none, view_count := none, uploader := none,
    url := none, formats := some [noUrlFmt, noUrlFmt, noUrlFmt], ext := none }

/-- A candidate whose height key is present but bound to null. -/
def nullHeightFmt : Fmt :=
  { format_id := some "bad", ext := some "mp4", height := some none,
    filesize := none, format_note := none, vcodec := some "h264",
    url := some "X" }

/-- An extractor result whose only candidate has a null height. -/
def nullHeightResult : Info :=
  { title := none, duration := none, view_count := none, uploader := none,
    url := none, formats := some [nullHeightFmt], ext := none }

/-- An extractor result with no formats key at all. -/
def emptyResult : Info :=
  { title := none, duration := none, view_count := none, uploader := none,
    url := none, formats := none, ext := none }

/-- An extractor result with a truthy top-level url and a webm extension. -/
def directUrlResult : Info :=
  { title := some "w", duration := none, view_count := none, uploader := none,
    url := some "https://cdn.example.com/x", formats := none,
    ext := some (some "webm") }

/-!
The claims.
-/

/-- C1: for every extractor result on which the selection of
`extract_video_info` completes, the chosen playback URL follows the strict
first-match-wins order: the non-empty top-level url; else the first
candidate with extension mp4, height at most 720 and a non-empty url; else
the first candidate with height at most 720, a non-empty url and a vcodec
other than "none"; else the empty string. -/
theorem extract_choice_follows_priority (info : Info) (u : String)
    (h : chosenUrl info = Except.ok u) : u = specChoose info := by
  cases hs : selectDownload info with
  | error e => simp [chosenUrl, hs, Except.map] at h
  | ok pr =>
    obtain ⟨u2, s⟩ := pr
    simp [chosenUrl, hs, Except.map] at h
    exact h ▸ selectDownload_ok_fst info u2 s hs

/-- Witness for C1 at the concrete example of spec §8: the mp4 480p
candidate "B" is chosen over the earlier webm one. -/
theorem extract_choice_follows_priority_witness :
    chosenUrl specExampleResult = Except.ok "B" ∧
    "B" = specChoose specExampleResult :=
  ⟨rfl, extract_choice_follows_priority specExampleResult "B" rfl⟩

/-- C2 counterexample: when the extractor raises, `POST /extract` answers
with HTTP status 500, not 200. -/
theorem extract_error_status_counterexample :
    extractStatus
        (extract_video true (Except.error "network error") "https://example.com/v")
      = 500 ∧
    extractStatus
        (extract_video true (Except.error "network error") "https://example.com/v")
      ≠ 200 :=
  ⟨rfl, by decide⟩

/-- C2 amended: when the extractor raises, `extract_video_info` wraps the
message in `HTTPException(500, "Video extraction failed: <message>")` and
`extract_video` re-raises it (`except HTTPException: raise`), so the
endpoint responds with HTTP status 500 carrying the underlying message; the
`success: false` HTTP-200 body is reserved for non-HTTPException failures. -/
theorem extract_error_propagates_500 (msg reqUrl : String) :
    extract_video true (Except.error msg) reqUrl =
      Except.error { status := 500, detail := "Video extraction failed: " ++ msg } :=
  rfl

/-- C3: on an extractor result with no playback URL anywhere, the 404
`HTTPException` raised inside the `try` block of `stream_video` is caught
by the handler's own blanket `except Exception`, so the endpoint returns a
`{"error": ...}` JSON body with HTTP status 200 instead of the intended
404 response. -/
theorem stream_no_url_gives_json_error :
    stream_video true (Except.ok noUrlResult) 0 =
      StreamResult.jsonError
        "Streaming failed: 404: No streamable URL found for this video" :=
  rfl

/-- C4: with the extractor library unavailable, the 503 `HTTPException`
raised inside the `try` block of `stream_video` is likewise caught by the
blanket `except Exception`, so every such request returns a `{"error": ...}`
JSON body with HTTP status 200 instead of the intended 503 response. -/
theorem stream_unavailable_gives_json_error (outcome : Except String Info) (ts : Nat) :
    stream_video false outcome ts =
      StreamResult.jsonError "Streaming failed: 503: yt-dlp service not available" :=
  rfl

/-- C5 counterexample: with six candidates whose first entry is audio-only,
the display list of the code (filter applied to the first five entries) has
four entries, while the first five qualifying entries of the whole sequence
are five. -/
theorem display_first_five_counterexample :
    displayFormats sixFmtResult ≠ specDisplayFirstFive sixFmtResult := by
  decide

/-- C5 amended: the display candidate list consists of those entries among
the *first five entries of the candidate sequence* that have a vcodec other
than "none" and a non-empty url (the code slices `formats[:5]` before
filtering); its length is at most 5 and source order is preserved. -/
theorem display_formats_among_first_five (info : Info) :
    displayFormats info =
        (((candidates info).take 5).filter displayKeep).map toDisplay ∧
    (displayFormats info).length ≤ 5 := by
  have hloop : ∀ l : List Fmt, displayLoop l = (l.filter displayKeep).map toDisplay := by
    intro l
    induction l with
    | nil => rfl
    | cons f fs ih =>
      by_cases hk : displayKeep f <;> simp [displayLoop, List.filter, hk, ih]
  have hmain : displayFormats info =
      (((candidates info).take 5).filter displayKeep).map toDisplay := by
    cases hf : info.formats with
    | none => simp [displayFormats, candidates, hf]
    | some fmts => simp [displayFormats, candidates, hf, hloop]
  refine ⟨hmain, ?_⟩
  rw [hmain]
  calc ((((candidates info).take 5).filter displayKeep).map toDisplay).length
      = (((candidates info).take 5).filter displayKeep).length := List.length_map _ _
    _ ≤ ((candidates info).take 5).length := List.length_filter_le _ _
    _ ≤ 5 := by simp [List.length_take]

/-- C6: the stream-URL selection of `stream_video` is exactly the two-step
policy: the top-level url when present and non-empty, otherwise the first
of the first three candidates carrying a non-empty url, with no codec or
resolution filtering. -/
theorem stream_select_two_step (info : Info) :
    streamSelect info = specStreamSelect info := by
  unfold streamSelect specStreamSelect
  by_cases htop : truthyOpt info.url
  · simp [htop]
  · cases hf : info.formats with
    | none => simp [htop, hf, candidates]
    | some fmts =>
      by_cases he : fmts = []
      · subst he
        simp [htop, hf, candidates]
      · simp [htop, hf, he, candidates]

/-- C7: every successful `GET /stream` resolution is a 302 redirect to the
resolved URL with a `Content-Disposition` attachment filename
`video_<ts>.<ext>`, where `<ext>` is the extractor-reported extension or
"mp4" when absent.  Excluded by hypothesis are a present-null extension
(Python would stringify it as "None"), a `Content-Disposition` value that
is not latin-1 encodable (the program then returns the
`Character encoding error` JSON body instead of redirecting), and a
resolved URL changed by starlette's percent-quoting of the `Location`
header (the redirect then targets the quoted form). -/
theorem stream_success_redirect (info : Info) (ts : Nat) (su : String)
    (h1 : streamSelect info = some su) (h2 : info.ext ≠ some none)
    (h3 : latin1Encodable (contentDisposition ts (streamExt info)) = true)
    (h4 : percentQuote su = su) :
    stream_video true (Except.ok info) ts =
      StreamResult.redirect 302 su (contentDisposition ts (specExt info)) := by
  have he : streamExt info = specExt info := by
    rcases hx : info.ext with _ | (_ | s) <;> simp_all [streamExt, specExt]
  rw [he] at h3
  simp [stream_video, h1, h3, h4, he]

/-- Witness for C7 on a result with a direct top-level url and extension
"webm". -/
theorem stream_success_redirect_witness :
    streamSelect directUrlResult = some "https://cdn.example.com/x" ∧
    directUrlResult.ext ≠ some none ∧
    latin1Encodable (contentDisposition 7 (streamExt directUrlResult)) = true ∧
    percentQuote "https://cdn.example.com/x" = "https://cdn.example.com/x" ∧
    stream_video true (Except.ok directUrlResult) 7 =
      StreamResult.redirect 302 "https://cdn.example.com/x"
        (contentDisposition 7 (specExt directUrlResult)) :=
  ⟨rfl, by decide, by decide, by decide,
    stream_success_redirect directUrlResult 7 "https://cdn.example.com/x" rfl
      (by decide) (by decide) (by decide)⟩

/-- C8: every successful `POST /extract` response carries the fixed proxy
string (base url ++ "/stream?url=" ++ request url) in `download_url`,
`direct_url` and `proxy_url`; and the response body does not depend on the
playback URL chosen by the selection policy, so that URL is never returned. -/
theorem extract_success_uses_proxy :
    (∀ (avail : Bool) (outcome : Except String Info) (reqUrl : String)
        (resp : ExtractResp),
        extract_video avail outcome reqUrl = Except.ok resp →
        resp.download_url = proxyUrlOf reqUrl ∧
          resp.direct_url = proxyUrlOf reqUrl ∧
          resp.proxy_url = proxyUrlOf reqUrl) ∧
    (∀ (vd : VideoData) (reqUrl s : String),
        extractRespOf { vd with url := s, direct_url := s } reqUrl =
          extractRespOf vd reqUrl) := by
  constructor
  · intro avail outcome reqUrl resp h
    cases hv : extract_video_info avail outcome with
    | error e => simp [extract_video, hv] at h
    | ok vd =>
      simp [extract_video, hv] at h
      subst h
      exact ⟨rfl, rfl, rfl⟩
  · intro vd reqUrl s
    rfl

/-- Witness for C8 at the mock-mode response. -/
theorem extract_success_uses_proxy_witness :
    extract_video false (Except.error "e") "https://u.example/w" =
        Except.ok (extractRespOf mockVideoData "https://u.example/w") ∧
    (extractRespOf mockVideoData "https://u.example/w").download_url =
        proxyUrlOf "https://u.example/w" :=
  ⟨rfl,
    (extract_success_uses_proxy.1 false (Except.error "e") "https://u.example/w" _
        rfl).1⟩

/-- C9: a candidate whose height key is present but null makes the
comparison against 720 raise, so `extract_video_info` fails with the
500 extraction error even though the extractor succeeded; and the function
succeeds whenever every candidate's height, when present, is an integer. -/
theorem null_height_raises_extraction_error :
    extract_video_info true (Except.ok nullHeightResult) =
      Except.error
        { status := 500,
          detail := "Video extraction failed: " ++ noneIntCompareMsg } ∧
    (∀ info : Info, heightsOk info = true →
        ∃ vd, extract_video_info true (Except.ok info) = Except.ok vd) := by
  constructor
  · rfl
  · intro info h
    obtain ⟨pr, hpr⟩ := selectDownload_ok_of_heightsOk info h
    obtain ⟨u, s⟩ := pr
    simp only [extract_video_info]
    rw [hpr]
    exact ⟨_, rfl⟩

/-- Witness for C9's totality part on a result with no formats key. -/
theorem null_height_raises_extraction_error_witness :
    heightsOk emptyResult = true ∧
    ∃ vd, extract_video_info true (Except.ok emptyResult) = Except.ok vd :=
  ⟨by decide, null_height_raises_extraction_error.2 emptyResult (by decide)⟩

/-- C10: with the extractor library unavailable, `extract_video_info`
returns the fixed mock record (title "Test Video - Mock Mode", the mock
download url, two mp4 format entries) and `POST /extract` responds with
HTTP 200 and `success: true`, for every outcome. -/
theorem mock_mode_returns_success (outcome : Except String Info) (reqUrl : String) :
    extract_video_info false outcome = Except.ok mockVideoData ∧
    mockVideoData.title = "Test Video - Mock Mode" ∧
    mockVideoData.url = "https://mock-download-url.com/test-video.mp4" ∧
    mockVideoData.formats.length = 2 ∧
    (mockVideoData.formats.all fun df => df.ext == "mp4") = true ∧
    extract_video false outcome reqUrl = Except.ok (extractRespOf mockVideoData reqUrl) ∧
    (extractRespOf mockVideoData reqUrl).success = true ∧
    extractStatus (extract_video false outcome reqUrl) = 200 :=
  ⟨rfl, rfl, rfl, rfl, by decide, rfl, rfl, rfl⟩

end RailwayYtdlp
